import Mathlib

/-!
# Statutory due-date computation engine — verification

Shallow embedding of the due-date handler `GET /api/due-dates/:userId`
(`src/server.js`, lines 1164–1283) of the bookkeeping backend, together
with proofs about it.

The handler reads one `personal_info` row, builds a candidate list of
contribution due-date entries (PhilHealth, SSS, Pag-IBIG) from the row's
membership numbers and employment status and the wall clock `now`, and
finally filters out candidates whose due date has already passed.

Modelling conventions:
* A MySQL nullable string column is `Option String`; JavaScript
  truthiness of such a value is `false` for `null` and for `""`.
* `now = new Date()` is a civil date (`getFullYear()`, `getMonth()+1`,
  `getDate()`) plus a time-of-day component (milliseconds past
  midnight).  The handler assumes a single timeline: `new Date(s)` on a
  produced `"YYYY-MM-DD"` string denotes midnight of that civil date.
* `parseInt` applied to a one-character string yields the digit value
  for ASCII `'0'`–`'9'` and `NaN` otherwise; `NaN` is modelled by
  `none`, and every numeric comparison against `NaN` is `false`.
* Due dates are kept as civil `(year, month, day)` triples rather than
  the formatted `"YYYY-MM-DD"` strings: for the dates the handler
  produces (four-digit year, valid month and day) the formatting and
  subsequent `new Date` re-parse round-trip, and the millisecond order
  of the resulting instants is the lexicographic order on
  `(year, month, day)` plus time of day.
-/

namespace DueDateEngine

/-- A civil calendar date, as carried by a produced due-date entry. -/
structure CivilDate where
  year : Nat
  month : Nat
  day : Nat
deriving DecidableEq, Repr

/-- The instant `now = new Date()` as the handler observes it: the civil
date given by `getFullYear()` / `getMonth()+1` / `getDate()` plus the
milliseconds elapsed since that date's midnight.  `msOfDay = 0` is exact
midnight. -/
structure DateTime where
  year : Nat
  month : Nat
  day : Nat
  msOfDay : Nat
deriving DecidableEq, Repr

/-- The columns of the `personal_info` row that the handler reads.
`none` models SQL `NULL`. -/
structure Profile where
  philhealth_number : Option String
  sss_number : Option String
  pagibig_number : Option String
  employment_status : Option String
deriving DecidableEq, Repr

/-- One element of the `dueDates` array the handler pushes. -/
structure Entry where
  agency : String
  description : String
  dueDate : CivilDate
  membershipNumber : String
deriving DecidableEq, Repr

/-- JavaScript truthiness of a nullable string column
(`if (userInfo.xxx_number)`): `null` and the empty string are falsy,
every other string is truthy. -/
def truthy : Option String → Bool
  | none => false
  | some s => s != ""

/-- `(year % 4 == 0 && year % 100 != 0) || year % 400 == 0`: the
Gregorian leap-year rule, as the JavaScript `Date` object implements
it. -/
def isLeapYear (year : Nat) : Bool :=
  (year % 4 == 0 && year % 100 != 0) || year % 400 == 0

/-- `const getLastDayOfMonth = (year, month) => new Date(year, month, 0).getDate()`
with `month` 1-indexed: the number of days of that Gregorian month, the
value the JavaScript expression computes for `1 ≤ month ≤ 12`. -/
def getLastDayOfMonth (year month : Nat) : Nat :=
  if month = 2 then (if isLeapYear year then 29 else 28)
  else if month = 4 ∨ month = 6 ∨ month = 9 ∨ month = 11 then 30
  else 31

/-- `const getFirstDayOfNextQuarter = (year, month) => ...`
(`src/server.js` lines 1188–1194).  `(month + 2) / 3` in `Nat` division
is `Math.ceil(month / 3)` for `month ≥ 1`. -/
def getFirstDayOfNextQuarter (year month : Nat) : CivilDate :=
  let quarter := (month + 2) / 3
  let nextQuarter := if quarter = 4 then 1 else quarter + 1
  let nextYear := if quarter = 4 then year + 1 else year
  let firstMonthOfQuarter := (nextQuarter - 1) * 3 + 1
  ⟨nextYear, firstMonthOfQuarter, 1⟩

/-- `parseInt` on a one-character string: the digit value for ASCII
`'0'`–`'9'`, and `none` (standing for `NaN`) for any other character. -/
def parseIntChar (c : Char) : Option Nat :=
  if '0' ≤ c ∧ c ≤ '9' then some (c.toNat - '0'.toNat) else none

/-- `parseInt(s.slice(-1))`: parse the final character of `s`.  `none`
models `NaN` (empty string, or a non-digit final character). -/
def parseIntLastChar (s : String) : Option Nat :=
  match s.data.getLast? with
  | some c => parseIntChar c
  | none => none

/-- The PhilHealth block of the handler (`src/server.js` lines
1197–1222).  `currentYear`/`currentMonth` are `now.getFullYear()` and
`now.getMonth() + 1`.  In the employed branch the JavaScript test
`lastDigit >= 1 && lastDigit <= 5` is `false` when `parseInt` returned
`NaN`. -/
def philhealthEntries (u : Profile) (currentYear currentMonth : Nat) : List Entry :=
  if truthy u.philhealth_number then
    let n := u.philhealth_number.getD ""
    if u.employment_status == some "employed" then
      let lastDigit := parseIntLastChar n
      let lastDigitInOneToFive :=
        match lastDigit with
        | some d => decide (1 ≤ d) && decide (d ≤ 5)
        | none => false
      let dueDay := if lastDigitInOneToFive then 15 else 20
      let nextMonth := if currentMonth = 12 then 1 else currentMonth + 1
      let dueYear := if currentMonth = 12 then currentYear + 1 else currentYear
      [{ agency := "PhilHealth"
         description := "PhilHealth contribution payment (Employed) - Form PMRF, ER2"
         dueDate := ⟨dueYear, nextMonth, dueDay⟩
         membershipNumber := n }]
    else if u.employment_status == some "self-employed" then
      let lastDay := getLastDayOfMonth currentYear currentMonth
      [{ agency := "PhilHealth"
         description := "PhilHealth contribution payment (Self-employed) - Form PMRF, PPP5"
         dueDate := ⟨currentYear, currentMonth, lastDay⟩
         membershipNumber := n }]
    else []
  else []

/-- The SSS block of the handler (`src/server.js` lines 1224–1241):
unconditional on employment status once `sss_number` is truthy; only the
description text depends on the status. -/
def sssEntries (u : Profile) (currentYear currentMonth : Nat) : List Entry :=
  if truthy u.sss_number then
    let n := u.sss_number.getD ""
    let nextMonth := if currentMonth = 12 then 1 else currentMonth + 1
    let dueYear := if currentMonth = 12 then currentYear + 1 else currentYear
    let lastDay := getLastDayOfMonth dueYear nextMonth
    let isEmp := u.employment_status == some "employed"
    let forms := if isEmp then "Form R-1, R-1A, R-3" else "Form RS-1, RS-5"
    [{ agency := "SSS"
       description := "SSS contribution payment ("
         ++ (if isEmp then "Employed" else "Self-employed") ++ ") - " ++ forms
       dueDate := ⟨dueYear, nextMonth, lastDay⟩
       membershipNumber := n }]
  else []

/-- The Pag-IBIG block of the handler (`src/server.js` lines 1243–1270):
a primary entry due the 10th of the next month when the status is
`employed` or `self-employed`, plus a quarterly-option entry when
`self-employed`. -/
def pagibigEntries (u : Profile) (currentYear currentMonth : Nat) : List Entry :=
  if truthy u.pagibig_number then
    if u.employment_status == some "employed"
        || u.employment_status == some "self-employed" then
      let n := u.pagibig_number.getD ""
      let nextMonth := if currentMonth = 12 then 1 else currentMonth + 1
      let dueYear := if currentMonth = 12 then currentYear + 1 else currentYear
      let isEmp := u.employment_status == some "employed"
      let forms := if isEmp then "Form ER1, MDF, MRS" else "Form MDF, POF"
      let primary : Entry :=
        { agency := "Pag-IBIG"
          description := "Pag-IBIG contribution payment ("
            ++ (if isEmp then "Employed" else "Self-employed") ++ ") - " ++ forms
          dueDate := ⟨dueYear, nextMonth, 10⟩
          membershipNumber := n }
      if u.employment_status == some "self-employed" then
        [primary,
         { agency := "Pag-IBIG"
           description := "Pag-IBIG contribution payment (Quarterly Option) - Form MDF, POF"
           dueDate := getFirstDayOfNextQuarter currentYear currentMonth
           membershipNumber := n }]
      else [primary]
    else []
  else []

/-- The full candidate array `dueDates` in push order: PhilHealth, then
SSS, then Pag-IBIG (primary before the quarterly option). -/
def dueDateCandidates (u : Profile) (t : DateTime) : List Entry :=
  philhealthEntries u t.year t.month
    ++ sssEntries u t.year t.month
    ++ pagibigEntries u t.year t.month

/-- Strict order on civil dates: lexicographic on (year, month, day),
which on valid civil dates is the millisecond order of their midnight
instants. -/
def civilLt (a b : CivilDate) : Bool :=
  decide (a.year < b.year
    ∨ (a.year = b.year
        ∧ (a.month < b.month ∨ (a.month = b.month ∧ a.day < b.day))))

/-- The final filter predicate `new Date(dueDate.dueDate) >= now`
(`src/server.js` lines 1273–1276).  The left side is midnight of the
entry's civil date; `now` is `t.msOfDay` milliseconds past midnight of
`t`'s civil date, so the instant comparison holds exactly when `t`'s
civil date strictly precedes the entry's, or the two coincide and `now`
is exact midnight. -/
def keepEntry (t : DateTime) (e : Entry) : Bool :=
  civilLt ⟨t.year, t.month, t.day⟩ e.dueDate
    || (e.dueDate == ⟨t.year, t.month, t.day⟩ && t.msOfDay == 0)

/-- The value the handler responds with: the candidate list with every
entry whose due-date instant precedes `now` removed
(`currentMonthDueDates` in the source). -/
def computeDueDates (u : Profile) (t : DateTime) : List Entry :=
  (dueDateCandidates u t).filter (keepEntry t)



theorem agency_of_mem_philhealthEntries {u : Profile} {y m : Nat} {e : Entry}
    (he : e ∈ philhealthEntries u y m) : e.agency = "PhilHealth" := by
  simp only [philhealthEntries] at he
  split at he
  · split at he
    · simp only [List.mem_singleton] at he; subst he; rfl
    · split at he
      · simp only [List.mem_singleton] at he; subst he; rfl
      · simp at he
  · simp at he

theorem agency_of_mem_sssEntries {u : Profile} {y m : Nat} {e : Entry}
    (he : e ∈ sssEntries u y m) : e.agency = "SSS" := by
  simp only [sssEntries] at he
  split at he
  · simp only [List.mem_singleton] at he; subst he; rfl
  · simp at he

theorem agency_of_mem_pagibigEntries {u : Profile} {y m : Nat} {e : Entry}
    (he : e ∈ pagibigEntries u y m) : e.agency = "Pag-IBIG" := by
  simp only [pagibigEntries] at he
  split at he
  · split at he
    · split at he
      · simp only [List.mem_cons, List.mem_singleton] at he
        rcases he with h | h | h
        · subst h; rfl
        · subst h; rfl
        · simp at h
      · simp only [List.mem_singleton] at he; subst he; rfl
    · simp at he
  · simp at he



theorem filter_philhealth (u : Profile) (t : DateTime) :
    (dueDateCandidates u t).filter (fun e => e.agency == "PhilHealth")
      = philhealthEntries u t.year t.month := by
  unfold dueDateCandidates
  rw [List.filter_append, List.filter_append]
  rw [List.filter_eq_self.mpr, List.filter_eq_nil_iff.mpr, List.filter_eq_nil_iff.mpr,
    List.append_nil, List.append_nil]
  · intro e he
    rw [agency_of_mem_pagibigEntries he]; decide
  · intro e he
    rw [agency_of_mem_sssEntries he]; decide
  · intro e he
    rw [agency_of_mem_philhealthEntries he]; decide

theorem filter_sss (u : Profile) (t : DateTime) :
    (dueDateCandidates u t).filter (fun e => e.agency == "SSS")
      = sssEntries u t.year t.month := by
  unfold dueDateCandidates
  rw [List.filter_append, List.filter_append]
  rw [List.filter_eq_nil_iff.mpr, List.filter_eq_self.mpr, List.filter_eq_nil_iff.mpr,
    List.nil_append, List.append_nil]
  · intro e he
    rw [agency_of_mem_pagibigEntries he]; decide
  · intro e he
    rw [agency_of_mem_sssEntries he]; decide
  · intro e he
    rw [agency_of_mem_philhealthEntries he]; decide

theorem filter_pagibig (u : Profile) (t : DateTime) :
    (dueDateCandidates u t).filter (fun e => e.agency == "Pag-IBIG")
      = pagibigEntries u t.year t.month := by
  unfold dueDateCandidates
  rw [List.filter_append, List.filter_append]
  rw [List.filter_eq_nil_iff.mpr, List.filter_eq_nil_iff.mpr, List.filter_eq_self.mpr,
    List.nil_append, List.nil_append]
  · intro e he
    rw [agency_of_mem_pagibigEntries he]; decide
  · intro e he
    rw [agency_of_mem_sssEntries he]; decide
  · intro e he
    rw [agency_of_mem_philhealthEntries he]; decide

theorem length_philhealthEntries (u : Profile) (y m : Nat) :
    (philhealthEntries u y m).length ≤ 1 := by
  simp only [philhealthEntries]
  split
  · split
    · simp
    · split <;> simp
  · simp

theorem length_sssEntries (u : Profile) (y m : Nat) :
    (sssEntries u y m).length ≤ 1 := by
  simp only [sssEntries]
  split <;> simp

theorem length_pagibigEntries (u : Profile) (y m : Nat) :
    (pagibigEntries u y m).length ≤ 2 := by
  simp only [pagibigEntries]
  split
  · split
    · split <;> simp
    · simp
  · simp



theorem parseIntChar_oneToFive_iff (c : Char) :
    ((match parseIntChar c with
      | some d => decide (1 ≤ d) && decide (d ≤ 5)
      | none => false) = true)
    ↔ c ∈ ['1', '2', '3', '4', '5'] := by
  unfold parseIntChar
  by_cases hd : '0' ≤ c ∧ c ≤ '9'
  · rw [if_pos hd]
    obtain ⟨h0, h9⟩ := hd
    rw [Char.le_def, UInt32.le_def, BitVec.le_def] at h0 h9
    have h0' : 48 ≤ c.toNat := h0
    have h9' : c.toNat ≤ 57 := h9
    constructor
    · intro h
      simp only [Bool.and_eq_true, decide_eq_true_eq] at h
      obtain ⟨hl, hr⟩ := h
      have hl' : 1 ≤ c.toNat - 48 := hl
      have hr' : c.toNat - 48 ≤ 5 := hr
      have hofn : Char.ofNat c.toNat = c := Char.ofNat_toNat c
      have : c.toNat = 49 ∨ c.toNat = 50 ∨ c.toNat = 51 ∨ c.toNat = 52 ∨ c.toNat = 53 := by
        omega
      rcases this with h | h | h | h | h <;> rw [h] at hofn <;>
        rw [← hofn] <;> decide
    · intro h
      simp only [List.mem_cons, List.not_mem_nil, or_false] at h
      rcases h with h | h | h | h | h <;> subst h <;> decide
  · rw [if_neg hd]
    simp only [Bool.false_eq_true, false_iff]
    intro hmem
    apply hd
    simp only [List.mem_cons, List.not_mem_nil, or_false] at hmem
    rcases hmem with h | h | h | h | h <;> subst h <;> exact ⟨by decide, by decide⟩

theorem parseIntLastChar_oneToFive_iff (s : String) :
    ((match parseIntLastChar s with
      | some d => decide (1 ≤ d) && decide (d ≤ 5)
      | none => false) = true)
    ↔ ∃ c ∈ ['1', '2', '3', '4', '5'], s.data.getLast? = some c := by
  unfold parseIntLastChar
  cases h : s.data.getLast? with
  | none =>
    simp
  | some c =>
    rw [parseIntChar_oneToFive_iff c]
    constructor
    · intro hc; exact ⟨c, hc, rfl⟩
    · rintro ⟨c', hc', heq⟩
      cases heq; exact hc'

theorem getFirstDayOfNextQuarter_eq (y m : Nat) (h1 : 1 ≤ m) (h2 : m ≤ 12) :
    getFirstDayOfNextQuarter y m
      = ⟨if 10 ≤ m then y + 1 else y,
         if m ≤ 3 then 4 else if m ≤ 6 then 7 else if m ≤ 9 then 10 else 1,
         1⟩ := by
  interval_cases m <;> rfl

theorem getLastDayOfMonth_gregorian (y m : Nat) (h1 : 1 ≤ m) (h2 : m ≤ 12) :
    getLastDayOfMonth y m
      = if m = 2 then
          (if y % 4 = 0 ∧ ¬(y % 100 = 0 ∧ ¬(y % 400 = 0)) then 29 else 28)
        else if m ∈ [4, 6, 9, 11] then 30 else 31 := by
  unfold getLastDayOfMonth isLeapYear
  interval_cases m <;> simp_all
  rcases Nat.decEq (y % 4) 0 with h4 | h4 <;>
    rcases Nat.decEq (y % 100) 0 with h100 | h100 <;>
    rcases Nat.decEq (y % 400) 0 with h400 | h400 <;>
    simp_all <;> omega



/-- Claim C7: for a profile in which all three membership numbers are
absent, `computeDueDates` returns the empty list for every `asOf` and every
employment status. -/
theorem computeDueDates_empty_of_no_numbers (u : Profile) (t : DateTime)
    (h1 : u.philhealth_number = none) (h2 : u.sss_number = none)
    (h3 : u.pagibig_number = none) :
    computeDueDates u t = [] := by
  simp [computeDueDates, dueDateCandidates, philhealthEntries, sssEntries,
    pagibigEntries, truthy, h1, h2, h3]

theorem computeDueDates_empty_witness :
    computeDueDates ⟨none, none, none, some "employed"⟩ ⟨2025, 6, 15, 123⟩ = [] :=
  computeDueDates_empty_of_no_numbers ⟨none, none, none, some "employed"⟩
    ⟨2025, 6, 15, 123⟩ rfl rfl rfl

/-- Claim C8: `computeDueDates` is total — every profile and every `asOf`
evaluate to some result list; in particular a membership string whose final
character is not a digit (modelled by `parseIntLastChar` returning `none`,
standing for JavaScript `NaN`) is tolerated and takes the 20th-of-month branch rather
than failing. -/
theorem computeDueDates_total (u : Profile) (t : DateTime) :
    (∃ l : List Entry, computeDueDates u t = l)
    ∧ (∀ s : String, u.philhealth_number = some s → s ≠ "" →
        u.employment_status = some "employed" → parseIntLastChar s = none →
        ∃ e ∈ dueDateCandidates u t, e.agency = "PhilHealth" ∧ e.dueDate.day = 20) := by
  constructor
  · exact ⟨_, rfl⟩
  · intro s hph hs hes hnan
    refine ⟨{ agency := "PhilHealth",
              description := "PhilHealth contribution payment (Employed) - Form PMRF, ER2",
              dueDate := ⟨if t.month = 12 then t.year + 1 else t.year,
                          if t.month = 12 then 1 else t.month + 1, 20⟩,
              membershipNumber := s }, ?_, rfl, rfl⟩
    unfold dueDateCandidates philhealthEntries
    rw [hph, hes]
    simp [truthy, hs, hnan]



theorem computeDueDates_total_witness :
    (∃ l : List Entry,
        computeDueDates ⟨some "PHX", none, none, some "employed"⟩ ⟨2025, 3, 1, 0⟩ = l)
    ∧ (∃ e ∈ dueDateCandidates ⟨some "PHX", none, none, some "employed"⟩ ⟨2025, 3, 1, 0⟩,
        e.agency = "PhilHealth" ∧ e.dueDate.day = 20) :=
  ⟨(computeDueDates_total ⟨some "PHX", none, none, some "employed"⟩ ⟨2025, 3, 1, 0⟩).1,
   (computeDueDates_total ⟨some "PHX", none, none, some "employed"⟩ ⟨2025, 3, 1, 0⟩).2
     "PHX" rfl (by decide) rfl (by decide)⟩

/-- Claim C9: a membership-number field holding the empty string behaves
exactly like an absent field — each agency branch is gated on JavaScript
string truthiness, so an empty-string PhilHealth, SSS or Pag-IBIG number
produces no entries for that agency. -/
theorem emptyString_suppresses_agency (u : Profile) (t : DateTime) :
    (u.philhealth_number = some "" →
      (dueDateCandidates u t).filter (fun e => e.agency == "PhilHealth") = [])
    ∧ (u.sss_number = some "" →
      (dueDateCandidates u t).filter (fun e => e.agency == "SSS") = [])
    ∧ (u.pagibig_number = some "" →
      (dueDateCandidates u t).filter (fun e => e.agency == "Pag-IBIG") = []) := by
  refine ⟨fun h => ?_, fun h => ?_, fun h => ?_⟩
  · rw [filter_philhealth]
    simp [philhealthEntries, truthy, h]
  · rw [filter_sss]
    simp [sssEntries, truthy, h]
  · rw [filter_pagibig]
    simp [pagibigEntries, truthy, h]

theorem emptyString_suppresses_agency_witness :
    ((dueDateCandidates ⟨some "", some "", some "", some "self-employed"⟩
        ⟨2025, 7, 4, 0⟩).filter (fun e => e.agency == "PhilHealth") = [])
    ∧ ((dueDateCandidates ⟨some "", some "", some "", some "self-employed"⟩
        ⟨2025, 7, 4, 0⟩).filter (fun e => e.agency == "SSS") = [])
    ∧ ((dueDateCandidates ⟨some "", some "", some "", some "self-employed"⟩
        ⟨2025, 7, 4, 0⟩).filter (fun e => e.agency == "Pag-IBIG") = []) :=
  ⟨(emptyString_suppresses_agency _ _).1 rfl,
   (emptyString_suppresses_agency _ _).2.1 rfl,
   (emptyString_suppresses_agency _ _).2.2 rfl⟩



/-- Claim C1, counterexample: for a self-employed profile with a PhilHealth
number and `asOf = 2025-08-31` at 10:00 (36 000 000 ms past midnight), the
candidate list contains an entry whose `dueDate` equals `asOf`'s civil date
(2025-08-31), yet the handler's result is empty — refuting the claim that an
entry whose `dueDate` equals `asOf`'s civil date is retained. -/
theorem sameday_candidate_dropped :
    Entry.mk "PhilHealth"
        "PhilHealth contribution payment (Self-employed) - Form PMRF, PPP5"
        ⟨2025, 8, 31⟩ "PH12"
      ∈ dueDateCandidates ⟨some "PH12", none, none, some "self-employed"⟩
          ⟨2025, 8, 31, 36000000⟩
    ∧ computeDueDates ⟨some "PH12", none, none, some "self-employed"⟩
        ⟨2025, 8, 31, 36000000⟩ = [] := by
  constructor
  · decide
  · decide

/-- Claim C1 (amended): the result of `computeDueDates` is the candidate
list with every entry removed whose due-date midnight instant precedes the
`asOf` instant: an entry is retained exactly when its `dueDate` is strictly
after `asOf`'s civil date, or equals it and `asOf`'s time of day is exactly
midnight; the surviving entries keep their relative order (the result is a
sublist of the candidate list).  The comparison is not date-only: an entry
dated on `asOf`'s own civil date is dropped whenever `asOf` has a nonzero
time-of-day component. -/
theorem computeDueDates_filter_characterization (u : Profile) (t : DateTime) :
    (computeDueDates u t).Sublist (dueDateCandidates u t)
    ∧ ∀ e : Entry,
        e ∈ computeDueDates u t
          ↔ e ∈ dueDateCandidates u t
            ∧ (t.year < e.dueDate.year
                ∨ (t.year = e.dueDate.year ∧ t.month < e.dueDate.month)
                ∨ (t.year = e.dueDate.year ∧ t.month = e.dueDate.month
                    ∧ t.day < e.dueDate.day)
                ∨ (e.dueDate = ⟨t.year, t.month, t.day⟩ ∧ t.msOfDay = 0)) := by
  constructor
  · exact List.filter_sublist _
  · intro e
    simp only [computeDueDates, List.mem_filter]
    apply and_congr_right
    intro _
    simp only [keepEntry, civilLt, Bool.or_eq_true, Bool.and_eq_true,
      decide_eq_true_eq, beq_iff_eq]
    constructor
    · rintro (h | ⟨h1, h2⟩)
      · tauto
      · tauto
    · rintro (h | h | h | h) <;> tauto



/-- Claim C2: for a profile with a PhilHealth number present, if the
employment status is employed then exactly one PhilHealth entry is produced,
whose day is the 15th when the number's final character is a digit in
{1,2,3,4,5} and the 20th otherwise (including a non-digit final character,
without failing), and whose month is the month after `asOf`'s month with the
year incremented when `asOf`'s month is December; if the status is neither
employed nor self-employed, no PhilHealth entry is produced. -/
theorem philhealth_employed_rule (u : Profile) (t : DateTime) (s : String)
    (hph : u.philhealth_number = some s) (hs : s ≠ "") :
    (u.employment_status = some "employed" →
      (dueDateCandidates u t).filter (fun e => e.agency == "PhilHealth")
        = [{ agency := "PhilHealth"
             description := "PhilHealth contribution payment (Employed) - Form PMRF, ER2"
             dueDate :=
               ⟨if t.month = 12 then t.year + 1 else t.year,
                if t.month = 12 then 1 else t.month + 1,
                if s.data.getLast? ∈ [some '1', some '2', some '3', some '4', some '5']
                  then 15 else 20⟩
             membershipNumber := s }])
    ∧ (u.employment_status ≠ some "employed" →
        u.employment_status ≠ some "self-employed" →
        (dueDateCandidates u t).filter (fun e => e.agency == "PhilHealth") = []) := by
  constructor
  · intro hes
    rw [filter_philhealth]
    unfold philhealthEntries
    rw [hph, hes]
    simp only [truthy, bne_iff_ne, ne_eq, hs, not_false_eq_true, if_true,
      beq_self_eq_true, Option.getD_some, parseIntLastChar_oneToFive_iff]
    simp [parseIntLastChar_oneToFive_iff]
  · intro h1 h2
    rw [filter_philhealth]
    unfold philhealthEntries
    have e1 : (u.employment_status == some "employed") = false := by
      simp [h1]
    have e2 : (u.employment_status == some "self-employed") = false := by
      simp [h2]
    simp [e1, e2]

theorem philhealth_employed_rule_witness :
    ((dueDateCandidates ⟨some "PH123", none, none, some "employed"⟩
        ⟨2025, 10, 15, 0⟩).filter (fun e => e.agency == "PhilHealth")
      = [{ agency := "PhilHealth"
           description := "PhilHealth contribution payment (Employed) - Form PMRF, ER2"
           dueDate := ⟨2025, 11, 15⟩
           membershipNumber := "PH123" }])
    ∧ ((dueDateCandidates ⟨some "PH123", none, none, none⟩
        ⟨2025, 10, 15, 0⟩).filter (fun e => e.agency == "PhilHealth") = []) :=
  ⟨(philhealth_employed_rule ⟨some "PH123", none, none, some "employed"⟩
      ⟨2025, 10, 15, 0⟩ "PH123" rfl (by decide)).1 rfl,
   (philhealth_employed_rule ⟨some "PH123", none, none, none⟩
      ⟨2025, 10, 15, 0⟩ "PH123" rfl (by decide)).2 (by decide) (by decide)⟩



theorem pagibigEntries_employed (u : Profile) (y m : Nat) (s : String)
    (hpg : u.pagibig_number = some s) (hs : s ≠ "")
    (he : u.employment_status = some "employed") :
    pagibigEntries u y m
      = [{ agency := "Pag-IBIG"
           description := "Pag-IBIG contribution payment (Employed) - Form ER1, MDF, MRS"
           dueDate := ⟨if m = 12 then y + 1 else y, if m = 12 then 1 else m + 1, 10⟩
           membershipNumber := s }] := by
  unfold pagibigEntries
  rw [hpg, he]
  simp [truthy, hs]

theorem pagibigEntries_selfemployed (u : Profile) (y m : Nat) (s : String)
    (hpg : u.pagibig_number = some s) (hs : s ≠ "")
    (he : u.employment_status = some "self-employed") :
    pagibigEntries u y m
      = [{ agency := "Pag-IBIG"
           description := "Pag-IBIG contribution payment (Self-employed) - Form MDF, POF"
           dueDate := ⟨if m = 12 then y + 1 else y, if m = 12 then 1 else m + 1, 10⟩
           membershipNumber := s },
         { agency := "Pag-IBIG"
           description := "Pag-IBIG contribution payment (Quarterly Option) - Form MDF, POF"
           dueDate := getFirstDayOfNextQuarter y m
           membershipNumber := s }] := by
  unfold pagibigEntries
  rw [hpg, he]
  simp [truthy, hs]

theorem pagibigEntries_other (u : Profile) (y m : Nat)
    (h1 : u.employment_status ≠ some "employed")
    (h2 : u.employment_status ≠ some "self-employed") :
    pagibigEntries u y m = [] := by
  unfold pagibigEntries
  have e1 : (u.employment_status == some "employed") = false := by simp [h1]
  have e2 : (u.employment_status == some "self-employed") = false := by simp [h2]
  simp [e1, e2]

/-- Claim C3: for a profile with a PhilHealth number present and
self-employed status, exactly one PhilHealth entry is produced, due on the
last calendar day of `asOf`'s own month and year, where for every month
1–12 the last day follows the Gregorian rule: February has 29 days exactly
in years divisible by 4 that are not centuries indivisible by 400. -/
theorem philhealth_selfemployed_rule (u : Profile) (t : DateTime) (s : String)
    (hph : u.philhealth_number = some s) (hs : s ≠ "")
    (hes : u.employment_status = some "self-employed") :
    ((dueDateCandidates u t).filter (fun e => e.agency == "PhilHealth")
        = [{ agency := "PhilHealth"
             description := "PhilHealth contribution payment (Self-employed) - Form PMRF, PPP5"
             dueDate := ⟨t.year, t.month, getLastDayOfMonth t.year t.month⟩
             membershipNumber := s }])
    ∧ (∀ y m : Nat, 1 ≤ m → m ≤ 12 →
        getLastDayOfMonth y m
          = if m = 2 then
              (if y % 4 = 0 ∧ ¬(y % 100 = 0 ∧ ¬(y % 400 = 0)) then 29 else 28)
            else if m ∈ [4, 6, 9, 11] then 30 else 31) := by
  constructor
  · rw [filter_philhealth]
    unfold philhealthEntries
    rw [hph, hes]
    simp [truthy, hs]
  · exact getLastDayOfMonth_gregorian

theorem philhealth_selfemployed_rule_witness :
    ((dueDateCandidates ⟨some "PH12", none, none, some "self-employed"⟩
        ⟨2024, 2, 10, 0⟩).filter (fun e => e.agency == "PhilHealth")
      = [{ agency := "PhilHealth"
           description := "PhilHealth contribution payment (Self-employed) - Form PMRF, PPP5"
           dueDate := ⟨2024, 2, 29⟩
           membershipNumber := "PH12" }])
    ∧ getLastDayOfMonth 2024 2 = 29 :=
  ⟨(philhealth_selfemployed_rule ⟨some "PH12", none, none, some "self-employed"⟩
      ⟨2024, 2, 10, 0⟩ "PH12" rfl (by decide) rfl).1,
   (philhealth_selfemployed_rule ⟨some "PH12", none, none, some "self-employed"⟩
      ⟨2024, 2, 10, 0⟩ "PH12" rfl (by decide) rfl).2 2024 2 (by decide) (by decide)⟩

/-- Claim C4: for a profile with an SSS number present, regardless of the
employment status (absent or unrecognized included), exactly one SSS entry
is produced, due on the last calendar day of the month after `asOf`'s month
(year incremented when `asOf`'s month is December); its description names
forms R-1, R-1A, R-3 when employed and RS-1, RS-5 otherwise. -/
theorem sss_rule (u : Profile) (t : DateTime) (s : String)
    (hsss : u.sss_number = some s) (hs : s ≠ "") :
    (dueDateCandidates u t).filter (fun e => e.agency == "SSS")
      = [{ agency := "SSS"
           description :=
             if u.employment_status = some "employed"
               then "SSS contribution payment (Employed) - Form R-1, R-1A, R-3"
               else "SSS contribution payment (Self-employed) - Form RS-1, RS-5"
           dueDate := ⟨if t.month = 12 then t.year + 1 else t.year,
                       if t.month = 12 then 1 else t.month + 1,
                       getLastDayOfMonth (if t.month = 12 then t.year + 1 else t.year)
                         (if t.month = 12 then 1 else t.month + 1)⟩
           membershipNumber := s }] := by
  rw [filter_sss]
  unfold sssEntries
  rw [hsss]
  by_cases he : u.employment_status = some "employed"
  · rw [he]
    simp [truthy, hs]
  · have e1 : (u.employment_status == some "employed") = false := by simp [he]
    simp [truthy, hs, e1, he]

theorem sss_rule_witness :
    (dueDateCandidates ⟨none, some "SS1", none, none⟩ ⟨2025, 1, 31, 0⟩).filter
        (fun e => e.agency == "SSS")
      = [{ agency := "SSS"
           description := "SSS contribution payment (Self-employed) - Form RS-1, RS-5"
           dueDate := ⟨2025, 2, 28⟩
           membershipNumber := "SS1" }] :=
  sss_rule ⟨none, some "SS1", none, none⟩ ⟨2025, 1, 31, 0⟩ "SS1" rfl (by decide)



/-- Claim C5: for a profile with a Pag-IBIG number present, a primary
Pag-IBIG entry due the 10th of the month after `asOf`'s month (year
incremented when `asOf`'s month is December) is produced if and only if the
employment status is employed or self-employed; any other status yields no
Pag-IBIG entries at all. -/
theorem pagibig_primary_rule (u : Profile) (t : DateTime) (s : String)
    (hpg : u.pagibig_number = some s) (hs : s ≠ "") :
    ((∃ e ∈ dueDateCandidates u t,
        e.agency = "Pag-IBIG"
          ∧ e.dueDate = ⟨if t.month = 12 then t.year + 1 else t.year,
                         if t.month = 12 then 1 else t.month + 1, 10⟩)
      ↔ (u.employment_status = some "employed"
          ∨ u.employment_status = some "self-employed"))
    ∧ ((u.employment_status ≠ some "employed"
        ∧ u.employment_status ≠ some "self-employed") →
        (dueDateCandidates u t).filter (fun e => e.agency == "Pag-IBIG") = []) := by
  constructor
  · constructor
    · rintro ⟨e, he, hag, _⟩
      by_contra hno
      push_neg at hno
      obtain ⟨h1, h2⟩ := hno
      have hmem : e ∈ (dueDateCandidates u t).filter (fun e => e.agency == "Pag-IBIG") :=
        List.mem_filter.mpr ⟨he, by simp [hag]⟩
      rw [filter_pagibig, pagibigEntries_other u t.year t.month h1 h2] at hmem
      simp at hmem
    · intro h
      rcases h with he | he
      · refine ⟨{ agency := "Pag-IBIG"
                  description := "Pag-IBIG contribution payment (Employed) - Form ER1, MDF, MRS"
                  dueDate := ⟨if t.month = 12 then t.year + 1 else t.year,
                              if t.month = 12 then 1 else t.month + 1, 10⟩
                  membershipNumber := s }, ?_, rfl, rfl⟩
        unfold dueDateCandidates
        refine List.mem_append_right _ ?_
        rw [pagibigEntries_employed u t.year t.month s hpg hs he]
        exact List.mem_singleton.mpr rfl
      · refine ⟨{ agency := "Pag-IBIG"
                  description := "Pag-IBIG contribution payment (Self-employed) - Form MDF, POF"
                  dueDate := ⟨if t.month = 12 then t.year + 1 else t.year,
                              if t.month = 12 then 1 else t.month + 1, 10⟩
                  membershipNumber := s }, ?_, rfl, rfl⟩
        unfold dueDateCandidates
        refine List.mem_append_right _ ?_
        rw [pagibigEntries_selfemployed u t.year t.month s hpg hs he]
        exact List.mem_cons_self _ _
  · rintro ⟨h1, h2⟩
    rw [filter_pagibig, pagibigEntries_other u t.year t.month h1 h2]

theorem pagibig_primary_rule_witness :
    ((∃ e ∈ dueDateCandidates ⟨none, none, some "PG1", some "employed"⟩ ⟨2025, 12, 2, 0⟩,
        e.agency = "Pag-IBIG" ∧ e.dueDate = ⟨2026, 1, 10⟩))
    ∧ ((dueDateCandidates ⟨none, none, some "PG1", none⟩ ⟨2025, 12, 2, 0⟩).filter
        (fun e => e.agency == "Pag-IBIG") = []) :=
  ⟨(pagibig_primary_rule ⟨none, none, some "PG1", some "employed"⟩ ⟨2025, 12, 2, 0⟩
      "PG1" rfl (by decide)).1.mpr (Or.inl rfl),
   (pagibig_primary_rule ⟨none, none, some "PG1", none⟩ ⟨2025, 12, 2, 0⟩
      "PG1" rfl (by decide)).2 ⟨by decide, by decide⟩⟩



theorem description_of_mem_philhealthEntries {u : Profile} {y m : Nat} {e : Entry}
    (he : e ∈ philhealthEntries u y m) :
    e.description ≠ "Pag-IBIG contribution payment (Quarterly Option) - Form MDF, POF" := by
  simp only [philhealthEntries] at he
  split at he
  · split at he
    · simp only [List.mem_singleton] at he; subst he; intro hq; simp at hq
    · split at he
      · simp only [List.mem_singleton] at he; subst he; intro hq; simp at hq
      · simp at he
  · simp at he

theorem description_of_mem_sssEntries {u : Profile} {y m : Nat} {e : Entry}
    (he : e ∈ sssEntries u y m) :
    e.description ≠ "Pag-IBIG contribution payment (Quarterly Option) - Form MDF, POF" := by
  simp only [sssEntries] at he
  split at he
  · simp only [List.mem_singleton] at he
    subst he
    rcases Bool.eq_false_or_eq_true (u.employment_status == some "employed") with h | h <;>
      simp [h]
  · simp at he

/-- Claim C6: for a profile with a Pag-IBIG number present and
self-employed status, exactly two Pag-IBIG entries are produced: the primary
entry plus a quarterly-option entry due the 1st day of the first month of
the calendar quarter after the quarter containing `asOf`'s month (quarters
are months 1–3, 4–6, 7–9, 10–12; quarter 4 rolls to quarter 1 of the next
year); for any other status no quarterly-option entry is ever produced. -/
theorem pagibig_quarterly_rule (u : Profile) (t : DateTime) (s : String)
    (hpg : u.pagibig_number = some s) (hs : s ≠ "")
    (hm1 : 1 ≤ t.month) (hm2 : t.month ≤ 12) :
    (u.employment_status = some "self-employed" →
      (dueDateCandidates u t).filter (fun e => e.agency == "Pag-IBIG")
        = [{ agency := "Pag-IBIG"
             description := "Pag-IBIG contribution payment (Self-employed) - Form MDF, POF"
             dueDate := ⟨if t.month = 12 then t.year + 1 else t.year,
                         if t.month = 12 then 1 else t.month + 1, 10⟩
             membershipNumber := s },
           { agency := "Pag-IBIG"
             description := "Pag-IBIG contribution payment (Quarterly Option) - Form MDF, POF"
             dueDate := ⟨if 10 ≤ t.month then t.year + 1 else t.year,
                         if t.month ≤ 3 then 4 else if t.month ≤ 6 then 7
                           else if t.month ≤ 9 then 10 else 1,
                         1⟩
             membershipNumber := s }])
    ∧ (u.employment_status ≠ some "self-employed" →
        ∀ e ∈ dueDateCandidates u t,
          e.description
            ≠ "Pag-IBIG contribution payment (Quarterly Option) - Form MDF, POF") := by
  constructor
  · intro he
    rw [filter_pagibig, pagibigEntries_selfemployed u t.year t.month s hpg hs he,
      getFirstDayOfNextQuarter_eq t.year t.month hm1 hm2]
  · intro hne e he
    unfold dueDateCandidates at he
    rcases List.mem_append.mp he with h | h
    · rcases List.mem_append.mp h with h' | h'
      · exact description_of_mem_philhealthEntries h'
      · exact description_of_mem_sssEntries h'
    · by_cases hemp : u.employment_status = some "employed"
      · rw [pagibigEntries_employed u t.year t.month s hpg hs hemp] at h
        simp only [List.mem_singleton] at h
        subst h
        intro hq
        simp at hq
      · rw [pagibigEntries_other u t.year t.month hemp hne] at h
        simp at h

theorem pagibig_quarterly_rule_witness :
    ((dueDateCandidates ⟨none, none, some "PG1", some "self-employed"⟩
        ⟨2025, 8, 20, 0⟩).filter (fun e => e.agency == "Pag-IBIG")
      = [{ agency := "Pag-IBIG"
           description := "Pag-IBIG contribution payment (Self-employed) - Form MDF, POF"
           dueDate := ⟨2025, 9, 10⟩
           membershipNumber := "PG1" },
         { agency := "Pag-IBIG"
           description := "Pag-IBIG contribution payment (Quarterly Option) - Form MDF, POF"
           dueDate := ⟨2025, 10, 1⟩
           membershipNumber := "PG1" }]) :=
  (pagibig_quarterly_rule ⟨none, none, some "PG1", some "self-employed"⟩
      ⟨2025, 8, 20, 0⟩ "PG1" rfl (by decide) (by decide) (by decide)).1 rfl



theorem countP_candidates_philhealth (u : Profile) (t : DateTime) :
    (dueDateCandidates u t).countP (fun e => e.agency == "PhilHealth") ≤ 1 := by
  unfold dueDateCandidates
  rw [List.countP_append, List.countP_append]
  have h1 : (sssEntries u t.year t.month).countP (fun e => e.agency == "PhilHealth") = 0 :=
    List.countP_eq_zero.mpr (fun e he => by rw [agency_of_mem_sssEntries he]; decide)
  have h2 : (pagibigEntries u t.year t.month).countP (fun e => e.agency == "PhilHealth") = 0 :=
    List.countP_eq_zero.mpr (fun e he => by rw [agency_of_mem_pagibigEntries he]; decide)
  have h3 := List.countP_le_length
    (p := fun e => e.agency == "PhilHealth") (l := philhealthEntries u t.year t.month)
  have h4 := length_philhealthEntries u t.year t.month
  omega

theorem countP_candidates_sss (u : Profile) (t : DateTime) :
    (dueDateCandidates u t).countP (fun e => e.agency == "SSS") ≤ 1 := by
  unfold dueDateCandidates
  rw [List.countP_append, List.countP_append]
  have h1 : (philhealthEntries u t.year t.month).countP (fun e => e.agency == "SSS") = 0 :=
    List.countP_eq_zero.mpr (fun e he => by rw [agency_of_mem_philhealthEntries he]; decide)
  have h2 : (pagibigEntries u t.year t.month).countP (fun e => e.agency == "SSS") = 0 :=
    List.countP_eq_zero.mpr (fun e he => by rw [agency_of_mem_pagibigEntries he]; decide)
  have h3 := List.countP_le_length
    (p := fun e => e.agency == "SSS") (l := sssEntries u t.year t.month)
  have h4 := length_sssEntries u t.year t.month
  omega

theorem countP_candidates_pagibig (u : Profile) (t : DateTime) :
    (dueDateCandidates u t).countP (fun e => e.agency == "Pag-IBIG") ≤ 2 := by
  unfold dueDateCandidates
  rw [List.countP_append, List.countP_append]
  have h1 : (philhealthEntries u t.year t.month).countP (fun e => e.agency == "Pag-IBIG") = 0 :=
    List.countP_eq_zero.mpr (fun e he => by rw [agency_of_mem_philhealthEntries he]; decide)
  have h2 : (sssEntries u t.year t.month).countP (fun e => e.agency == "Pag-IBIG") = 0 :=
    List.countP_eq_zero.mpr (fun e he => by rw [agency_of_mem_sssEntries he]; decide)
  have h3 := List.countP_le_length
    (p := fun e => e.agency == "Pag-IBIG") (l := pagibigEntries u t.year t.month)
  have h4 := length_pagibigEntries u t.year t.month
  omega



theorem keepEntry_next_month_primary (t : DateTime) (s : String) :
    keepEntry t
      { agency := "Pag-IBIG"
        description := "Pag-IBIG contribution payment (Self-employed) - Form MDF, POF"
        dueDate := ⟨if t.month = 12 then t.year + 1 else t.year,
                    if t.month = 12 then 1 else t.month + 1, 10⟩
        membershipNumber := s } = true := by
  unfold keepEntry civilLt
  rw [Bool.or_eq_true]
  left
  rw [decide_eq_true_eq]
  by_cases hm : t.month = 12
  · simp [hm]
  · simp [hm]

/-- Claim C10: every result contains at most one PhilHealth entry, at
most one SSS entry and at most two Pag-IBIG entries (at most four entries in
total), and a Pag-IBIG quarterly-option entry only occurs together with a
Pag-IBIG primary entry (day 10) for the same membership number. -/
theorem computeDueDates_shape (u : Profile) (t : DateTime) :
    ((computeDueDates u t).countP (fun e => e.agency == "PhilHealth") ≤ 1)
    ∧ ((computeDueDates u t).countP (fun e => e.agency == "SSS") ≤ 1)
    ∧ ((computeDueDates u t).countP (fun e => e.agency == "Pag-IBIG") ≤ 2)
    ∧ (computeDueDates u t).length ≤ 4
    ∧ (∀ e ∈ computeDueDates u t,
        e.description = "Pag-IBIG contribution payment (Quarterly Option) - Form MDF, POF" →
        ∃ e' ∈ computeDueDates u t,
          e'.agency = "Pag-IBIG" ∧ e'.dueDate.day = 10
            ∧ e'.membershipNumber = e.membershipNumber ∧ e' ≠ e) := by
  have hsub : (computeDueDates u t).Sublist (dueDateCandidates u t) :=
    List.filter_sublist _
  refine ⟨?_, ?_, ?_, ?_, ?_⟩
  · exact le_trans (hsub.countP_le _) (countP_candidates_philhealth u t)
  · exact le_trans (hsub.countP_le _) (countP_candidates_sss u t)
  · exact le_trans (hsub.countP_le _) (countP_candidates_pagibig u t)
  · refine le_trans hsub.length_le ?_
    unfold dueDateCandidates
    rw [List.length_append, List.length_append]
    have h1 := length_philhealthEntries u t.year t.month
    have h2 := length_sssEntries u t.year t.month
    have h3 := length_pagibigEntries u t.year t.month
    omega
  · intro e he hdesc
    have hec : e ∈ dueDateCandidates u t := List.mem_of_mem_filter he
    unfold dueDateCandidates at hec
    rcases List.mem_append.mp hec with h | hpgm
    · rcases List.mem_append.mp h with h' | h'
      · exact absurd hdesc (description_of_mem_philhealthEntries h')
      · exact absurd hdesc (description_of_mem_sssEntries h')
    · have htr : truthy u.pagibig_number = true := by
        by_contra hf
        rw [Bool.not_eq_true] at hf
        unfold pagibigEntries at hpgm
        rw [hf] at hpgm
        simp at hpgm
      obtain ⟨s, hpg, hs⟩ : ∃ s, u.pagibig_number = some s ∧ s ≠ "" := by
        cases hn : u.pagibig_number with
        | none => rw [hn] at htr; simp [truthy] at htr
        | some s =>
          refine ⟨s, rfl, ?_⟩
          rw [hn] at htr
          simpa [truthy] using htr
      by_cases hse : u.employment_status = some "self-employed"
      · rw [pagibigEntries_selfemployed u t.year t.month s hpg hs hse] at hpgm
        simp only [List.mem_cons, List.not_mem_nil, or_false] at hpgm
        rcases hpgm with hpe | hqe
        · subst hpe; simp at hdesc
        · subst hqe
          refine ⟨{ agency := "Pag-IBIG"
                    description := "Pag-IBIG contribution payment (Self-employed) - Form MDF, POF"
                    dueDate := ⟨if t.month = 12 then t.year + 1 else t.year,
                                if t.month = 12 then 1 else t.month + 1, 10⟩
                    membershipNumber := s }, ?_, rfl, rfl, rfl, ?_⟩
          · apply List.mem_filter.mpr
            refine ⟨?_, keepEntry_next_month_primary t s⟩
            unfold dueDateCandidates
            refine List.mem_append_right _ ?_
            rw [pagibigEntries_selfemployed u t.year t.month s hpg hs hse]
            exact List.mem_cons_self _ _
          · intro hcontra
            simp only [Entry.mk.injEq] at hcontra
            simp at hcontra
      · by_cases hemp : u.employment_status = some "employed"
        · rw [pagibigEntries_employed u t.year t.month s hpg hs hemp] at hpgm
          simp only [List.mem_singleton] at hpgm
          subst hpgm
          simp at hdesc
        · rw [pagibigEntries_other u t.year t.month hemp hse] at hpgm
          simp at hpgm



theorem computeDueDates_shape_witness :
    ∃ e' ∈ computeDueDates ⟨none, none, some "PG9", some "self-employed"⟩
        ⟨2025, 8, 20, 0⟩,
      e'.agency = "Pag-IBIG" ∧ e'.dueDate.day = 10
        ∧ e'.membershipNumber = "PG9"
        ∧ e' ≠ { agency := "Pag-IBIG"
                 description := "Pag-IBIG contribution payment (Quarterly Option) - Form MDF, POF"
                 dueDate := ⟨2025, 10, 1⟩
                 membershipNumber := "PG9" } :=
  (computeDueDates_shape ⟨none, none, some "PG9", some "self-employed"⟩
      ⟨2025, 8, 20, 0⟩).2.2.2.2
    { agency := "Pag-IBIG"
      description := "Pag-IBIG contribution payment (Quarterly Option) - Form MDF, POF"
      dueDate := ⟨2025, 10, 1⟩
      membershipNumber := "PG9" }
    (by decide) rfl

end DueDateEngine
